import Mathlib

/-!
# Verification of the brunch-blog backend core

A shallow embedding of the logic of `api/index.js` (Express handlers over a
Supabase `posts` table) and of the pure helper `ThemeManager.darken` from
`client.js`, together with theorems settling the specified behaviour.

Conventions of the embedding:
* JavaScript numbers that hold table data are modelled as `Nat`/`Int`;
  timestamps are abstract `Nat` instants supplied by the caller.
* A Supabase query result is a pair of optional `data` and optional `error`,
  mirroring the `{ data, error }` objects returned by supabase-js.
* `.single()` yields an error (PostgREST code PGRST116) unless exactly one
  row is returned, mirroring supabase-js semantics.
* Express handlers are total functions from the request and the table state
  to a response and the successor table state.
-/

namespace BrunchBlog

/-- A weather theme, `{ color, name, label }` as built in `api/index.js`. -/
structure Theme where
  color : String
  name : String
  label : String
deriving DecidableEq

/-- Direct translation of `getThemeFromWeatherCode` (api/index.js lines 49-72).
The JavaScript `[1, 2, 3, 45, 48].includes(code)` is list membership under
strict numeric equality. -/
def getThemeFromWeatherCode (code : ℤ) : Theme :=
  if code = 0 then
    ⟨"#00C6BD", "clear", "맑음"⟩
  else if code ∈ ([1, 2, 3, 45, 48] : List ℤ) then
    ⟨"#8E8E93", "clouds", "흐림"⟩
  else if (51 ≤ code ∧ code ≤ 67) ∨ (80 ≤ code ∧ code ≤ 82) then
    ⟨"#4A90E2", "rain", "비"⟩
  else if (71 ≤ code ∧ code ≤ 77) ∨ code = 85 ∨ code = 86 then
    ⟨"#B8C5D6", "snow", "눈"⟩
  else if 95 ≤ code ∧ code ≤ 99 then
    ⟨"#4A90E2", "thunderstorm", "천둥번개"⟩
  else
    ⟨"#00C6BD", "default", "기본"⟩

/-- The color/name part of a theme (the part the specification's mapping
table fixes). -/
structure ThemeCN where
  color : String
  name : String
deriving DecidableEq

/-- The weather-code policy exactly as the specification words it: code 0 is
clear; codes 1, 2, 3, 45, 48 are clouds; 51-67 and 80-82 are rain; 71-77,
85, 86 are snow; 95-99 are thunderstorm; every other integer is default.
This is the refinement target for `getThemeFromWeatherCode`. -/
def weatherThemeSpec (code : ℤ) : ThemeCN :=
  if code = 0 then
    ⟨"#00C6BD", "clear"⟩
  else if code = 1 ∨ code = 2 ∨ code = 3 ∨ code = 45 ∨ code = 48 then
    ⟨"#8E8E93", "clouds"⟩
  else if (51 ≤ code ∧ code ≤ 67) ∨ (80 ≤ code ∧ code ≤ 82) then
    ⟨"#4A90E2", "rain"⟩
  else if (71 ≤ code ∧ code ≤ 77) ∨ code = 85 ∨ code = 86 then
    ⟨"#B8C5D6", "snow"⟩
  else if 95 ≤ code ∧ code ≤ 99 then
    ⟨"#4A90E2", "thunderstorm"⟩
  else
    ⟨"#00C6BD", "default"⟩

/-- The current-weather object of an Open-Meteo payload, as read by the
handler (`data.current_weather`). -/
structure CurrentWeather where
  weathercode : ℤ
  temperature : ℚ
deriving DecidableEq

/-- Everything that can happen inside the `try` block of the
`GET /api/weather` handler before a response is produced: the `fetch` call
can reject, the response can arrive non-ok, `response.json()` can reject on
a malformed body, the parsed body can lack `current_weather` (so that
reading `.weathercode` throws a `TypeError`), or a current-weather object is
obtained. -/
inductive WeatherFetchOutcome where
  | fetchError (msg : String)
  | notOk
  | jsonError (msg : String)
  | missingCurrentWeather
  | success (cw : CurrentWeather)

/-- `true` exactly on the failure outcomes of the weather lookup. -/
def WeatherFetchOutcome.isFailure : WeatherFetchOutcome → Bool
  | .success _ => false
  | _ => true

/-- The `try` body of the weather handler (api/index.js lines 95-112): each
failure becomes the thrown error the `catch` receives; `!response.ok` throws
the literal message of line 105. -/
def weatherTry : WeatherFetchOutcome → Except String CurrentWeather
  | .fetchError msg => .error msg
  | .notOk => .error "날씨 API 호출 실패"
  | .jsonError msg => .error msg
  | .missingCurrentWeather => .error "TypeError: undefined weathercode"
  | .success cw => .ok cw

/-- The JSON body of a `GET /api/weather` response, plus the HTTP status. -/
structure WeatherResponse where
  status : ℕ
  success : Bool
  theme : Theme
  code : Option ℤ
  temp : Option ℤ
  error : Option String
deriving DecidableEq

/-- `Math.round`: round to the nearest integer, half toward +infinity. -/
def jsRound (q : ℚ) : ℤ := ⌊q + 1 / 2⌋

/-- The full `GET /api/weather` handler (api/index.js lines 94-133): on any
thrown error the `catch` block answers `res.json(...)`, which is HTTP 200,
with `success: false` and the literal default theme of line 129. The
handler is a total function: no outcome escapes it. -/
def weatherHandler (o : WeatherFetchOutcome) : WeatherResponse :=
  match weatherTry o with
  | .error msg =>
      ⟨200, false, ⟨"#00C6BD", "default", "기본"⟩, none, none, some msg⟩
  | .ok cw =>
      let theme := getThemeFromWeatherCode cw.weathercode
      ⟨200, true, theme, some cw.weathercode, some (jsRound cw.temperature), none⟩

/-! ## The posts table and its CRUD handlers (api/index.js lines 148-319) -/

/-- One row of the `posts` table. Per the schema, `id` is the serial primary
key, `title`/`content`/`excerpt` are non-null text, `thumbnail` is nullable,
`view_count` is a non-negative counter, and the timestamps are modelled as
abstract instants. -/
structure Post where
  id : ℕ
  title : String
  content : String
  excerpt : String
  thumbnail : Option String
  view_count : ℕ
  created_at : ℕ
  updated_at : ℕ
deriving DecidableEq

/-- The rows matching `.eq('id', id)`, in table (insertion) order. -/
def findRows (db : List Post) (id : ℕ) : List Post :=
  db.filter (fun r => r.id = id)

/-- A supabase-js query result: `{ data, error }`. -/
structure SingleResult where
  data : Option Post
  error : Option String
deriving DecidableEq

/-- `.select('*').eq('id', id).single()`: supabase-js returns the row when
exactly one matches, and otherwise an error (PostgREST code PGRST116,
"JSON object requested, multiple (or no) rows returned") with `data: null`.
In particular a missing id yields an error, not a null `data`. -/
def selectSingle (db : List Post) (id : ℕ) : SingleResult :=
  match findRows db id with
  | [r] => ⟨some r, none⟩
  | _ => ⟨none, some "PGRST116"⟩

/-- The update statement `.update(...).eq('id', id)` that sets `view_count`
to `v` on every matching row. -/
def setViewCount (db : List Post) (id : ℕ) (v : ℕ) : List Post :=
  db.map fun r => if r.id = id then { r with view_count := v } else r

/-- Observer: the stored `view_count` of row `id` (first match). -/
def viewCountOf (db : List Post) (id : ℕ) : Option ℕ :=
  (findRows db id).head?.map (·.view_count)

/-- The JSON body (plus HTTP status) of a post-endpoint response. -/
structure PostResponse where
  status : ℕ
  success : Bool
  post : Option Post
  error : Option String
deriving DecidableEq

/-- The value the detail handler writes back for the view count: line 207 is
`view_count: (data.view_count || 0) + 1`, computed in application code from
the row `data` that this request read (`view_count` is non-null, so
`|| 0` never changes it). -/
def viewCountWrite (db : List Post) (id : ℕ) : Option ℕ :=
  (selectSingle db id).data.map (fun data => data.view_count + 1)

/-- `GET /api/posts/:id` (api/index.js lines 185-216). The read uses
`.single()`; a non-null error is thrown and caught, answering 500. The
`if (!data)` 404 branch of lines 197-202 runs only when both `error` and
`data` are null, which `selectSingle` never produces. On success the
fire-and-forget update of lines 204-209 writes `data.view_count + 1`, and
the response is built from the previously read `data`. -/
def getPostById (db : List Post) (id : ℕ) : PostResponse × List Post :=
  match selectSingle db id with
  | ⟨_, some e⟩ => (⟨500, false, none, some e⟩, db)
  | ⟨none, none⟩ => (⟨404, false, none, some "게시글을 찾을 수 없습니다."⟩, db)
  | ⟨some data, none⟩ =>
      (⟨200, true, some data, none⟩, setViewCount db id (data.view_count + 1))

/-- The JSON body of `POST /api/posts`: each field is `none` when absent
from the request body. -/
structure CreateBody where
  title : Option String
  content : Option String
  excerpt : Option String
  thumbnail : Option String
deriving DecidableEq

/-- JavaScript truthiness test for an optional string: `undefined`/`null`
(here `none`) and the empty string are falsy. -/
def isFalsy : Option String → Bool
  | none => true
  | some s => s = ""

/-- `POST /api/posts` (api/index.js lines 231-262). The validation
`if (!title || !content)` answers 400 before any store call; otherwise one
row is inserted with `excerpt: excerpt || ''` and `thumbnail: thumbnail ||
null`, the store assigning `newId` and the timestamps (`now`). -/
def createPost (db : List Post) (b : CreateBody) (newId now : ℕ) :
    PostResponse × List Post :=
  if isFalsy b.title || isFalsy b.content then
    (⟨400, false, none, some "제목과 내용은 필수입니다."⟩, db)
  else
    let row : Post :=
      { id := newId
        title := b.title.getD ""
        content := b.content.getD ""
        excerpt := if isFalsy b.excerpt then "" else b.excerpt.getD ""
        thumbnail := if isFalsy b.thumbnail then none else b.thumbnail
        view_count := 0
        created_at := now
        updated_at := now }
    (⟨201, true, some row, none⟩, db ++ [row])

/-- The JSON body of `PUT /api/posts/:id`: `none` models a field absent from
the request body (destructured to `undefined` on line 272). -/
structure UpdateBody where
  title : Option String
  content : Option String
  excerpt : Option String
  thumbnail : Option String
deriving DecidableEq

/-- The effect of the `.update({...})` object of lines 277-283 on one row:
supabase-js serialises the update object with `JSON.stringify`, which drops
`undefined` properties, and PostgREST PATCHes only the keys present. So a
field absent from the request body leaves its column unchanged, while a
present field overwrites it; `updated_at` is always present
(`new Date().toISOString()`). -/
def applyUpdate (r : Post) (b : UpdateBody) (now : ℕ) : Post :=
  { r with
    title := b.title.getD r.title
    content := b.content.getD r.content
    excerpt := b.excerpt.getD r.excerpt
    thumbnail := match b.thumbnail with | none => r.thumbnail | some t => some t
    updated_at := now }

/-- `PUT /api/posts/:id` (api/index.js lines 269-295): update the matching
rows, then `.select().single()` — zero matching rows make `.single()` error,
which is thrown and caught, answering 500. There is no 404 branch. -/
def updatePostById (db : List Post) (id : ℕ) (b : UpdateBody) (now : ℕ) :
    PostResponse × List Post :=
  let db' := db.map fun r => if r.id = id then applyUpdate r b now else r
  match selectSingle db' id with
  | ⟨_, some e⟩ => (⟨500, false, none, some e⟩, db')
  | ⟨d, none⟩ => (⟨200, true, d, none⟩, db')

/-- `DELETE /api/posts/:id` (api/index.js lines 302-319): remove the
matching rows. supabase-js reports no error when zero rows match, and the
handler inspects nothing but `error`, so it always answers 200 with
`success: true`. -/
def deletePostById (db : List Post) (id : ℕ) : PostResponse × List Post :=
  (⟨200, true, none, none⟩, db.filter (fun r => ¬ r.id = id))

/-- The projection selected by the list query:
`id, title, excerpt, thumbnail, created_at, view_count` — `content` is not
selected. -/
structure PostSummary where
  id : ℕ
  title : String
  excerpt : String
  thumbnail : Option String
  created_at : ℕ
  view_count : ℕ
deriving DecidableEq

/-- Project a row to the columns of the list query. -/
def projPost (r : Post) : PostSummary :=
  ⟨r.id, r.title, r.excerpt, r.thumbnail, r.created_at, r.view_count⟩

/-- The comparison sent by `.order('created_at', ascending: false)`:
`a` may precede `b` when `a.created_at ≥ b.created_at`. It is the only
ordering key of the query — ties carry no constraint, so the store model
sorts stably over table order. -/
def byCreatedDesc (a b : Post) : Bool := decide (b.created_at ≤ a.created_at)

/-- The pagination object of the list response. -/
structure Pagination where
  page : ℕ
  limit : ℕ
  total : ℕ
  totalPages : ℕ
deriving DecidableEq

/-- The JSON body (plus HTTP status) of `GET /api/posts`. -/
structure ListResponse where
  status : ℕ
  success : Bool
  posts : List PostSummary
  pagination : Pagination
deriving DecidableEq

/-- `Math.ceil(count / limit)` on non-negative numbers: the rational
quotient rounded toward +infinity. -/
def jsCeilDiv (count limit : ℕ) : ℕ := (⌈(count : ℚ) / (limit : ℚ)⌉).toNat

/-- `GET /api/posts` (api/index.js lines 148-177) for numeric query
parameters: `offset = (page-1)*limit`; the select projects the six list
columns, orders by `created_at` descending and takes the inclusive range
`offset .. offset+limit-1`; `count: 'exact'` returns the full row count;
`totalPages` is `Math.ceil(count / limit)`. An empty result set is not an
error: the handler answers 200 with an empty array. -/
def listPosts (db : List Post) (page limit : ℕ) : ListResponse :=
  let offset := (page - 1) * limit
  let data := (((db.mergeSort byCreatedDesc).map projPost).drop offset).take limit
  let count := db.length
  ⟨200, true, data, ⟨page, limit, count, jsCeilDiv count limit⟩⟩

/-! ## `ThemeManager.darken` (client.js lines 161-168) -/

/-- The numeric value of one hexadecimal digit, by code point: `0`-`9` are
48-57, `a`-`f` are 97-102, `A`-`F` are 65-70 (`parseInt(s, 16)` accepts
both cases). -/
def hexDigitVal (c : Char) : Option ℕ :=
  if 48 ≤ c.toNat ∧ c.toNat ≤ 57 then some (c.toNat - 48)
  else if 97 ≤ c.toNat ∧ c.toNat ≤ 102 then some (c.toNat - 97 + 10)
  else if 65 ≤ c.toNat ∧ c.toNat ≤ 70 then some (c.toNat - 65 + 10)
  else none

/-- Accumulating base-16 parser for `parseInt(s, 16)`. -/
def parseHexAux : ℕ → List Char → Option ℕ
  | n, [] => some n
  | n, c :: cs =>
    match hexDigitVal c with
    | some d => parseHexAux (n * 16 + d) cs
    | none => none

/-- `parseInt(s, 16)` restricted to fully-hexadecimal inputs: `none` stands
for `NaN`. (JavaScript would also parse a valid strict prefix; every input
quantified over below is either fully hexadecimal or empty, where the two
semantics agree.) -/
def parseHex (l : List Char) : Option ℕ :=
  match l with
  | [] => none
  | _ => parseHexAux 0 l

/-- `hex.replace('#', '')` with a string pattern replaces only the first
occurrence. -/
def replaceFirstHash : List Char → List Char
  | [] => []
  | c :: cs => if c = '#' then cs else c :: replaceFirstHash cs

/-- `Number.prototype.toString(16)`: repeated division by 16, most
significant digit first, lowercase digits. The fuel argument strictly
bounds the digit count (`n + 1` always suffices). -/
def toString16Aux : ℕ → ℕ → List Char → List Char
  | 0, _, acc => acc
  | fuel + 1, n, acc =>
    if n < 16 then Nat.digitChar n :: acc
    else toString16Aux fuel (n / 16) (Nat.digitChar (n % 16) :: acc)

/-- `n.toString(16)` as a digit list. -/
def toString16 (n : ℕ) : List Char := toString16Aux (n + 1) n []

/-- The double closest to the literal `2.55`, scaled by `2 ^ 51`: the
IEEE-754 binary64 value of `2.55` is `m255 / 2 ^ 51`, which is strictly
below 51 / 20. -/
def m255 : ℕ := 5742089524897382

/-- Floor of the base-2 logarithm, by fuelled halving. -/
def log2Floor : ℕ → ℕ → ℕ
  | 0, _ => 0
  | fuel + 1, n => if n < 2 then 0 else log2Floor fuel (n / 2) + 1

/-- Round `a / b` to the nearest integer, ties to even (the IEEE-754
default rounding used by double multiplication). -/
def rne (a b : ℕ) : ℕ :=
  let q := a / b
  let r := a % b
  if 2 * r < b then q
  else if b < 2 * r then q + 1
  else if q % 2 = 0 then q else q + 1

/-- `Math.round(2.55 * percent)` under IEEE-754 binary64 semantics, computed
exactly: the literal `2.55` denotes `m255 / 2 ^ 51`; the product with the
integer `percent` is rounded to a 53-bit significand, nearest-even
(`n / 2 ^ (52 - e)` with `2 ^ e` the binade of the product); `Math.round`
then rounds that double to the nearest integer, half toward +infinity. -/
def jsAmt (percent : ℕ) : ℕ :=
  if percent = 0 then 0
  else
    let a := m255 * percent
    let e := log2Floor 64 (a / 2 ^ 51)
    let n := rne a (2 ^ (e - 1))
    (n + 2 ^ (51 - e)) / 2 ^ (52 - e)

/-- `round(2.55 * percent)` in exact real arithmetic (half rounds up), as
the specification's formula reads: `⌊(51 p / 20) + 1/2⌋`. -/
def claimAmt (percent : ℕ) : ℕ := (51 * percent + 10) / 20

/-- The re-encoding step of `darken`: with `amt` already computed, extract
the three channels of `num` (`num >> 16`, `(num >> 8) & 0xFF`,
`num & 0xFF`), clamp each reduction at 0 with `Math.max`, and render
`'#' + (0x1000000 + R * 0x10000 + G * 0x100 + B).toString(16).slice(1)`. -/
def jsEncode (num amt : ℕ) : String :=
  let r : ℕ := (max 0 ((num : ℤ) / 65536 - (amt : ℤ))).toNat
  let g : ℕ := (max 0 ((num : ℤ) / 256 % 256 - (amt : ℤ))).toNat
  let b : ℕ := (max 0 ((num : ℤ) % 256 - (amt : ℤ))).toNat
  String.mk ('#' :: (toString16 (16777216 + r * 65536 + g * 256 + b)).drop 1)

/-- `ThemeManager.darken(hex, percent)` (client.js lines 161-168), for a
natural-number percentage. -/
def darken (hex : String) (percent : ℕ) : Option String :=
  (parseHex (replaceFirstHash hex.data)).map fun num => jsEncode num (jsAmt percent)

/-- Six zero-padded hex digits for channels already reduced and clamped:
the encoding the specification describes. -/
def claimEncode (num amt : ℕ) : String :=
  let r : ℕ := (max 0 ((num : ℤ) / 65536 - (amt : ℤ))).toNat
  let g : ℕ := (max 0 ((num : ℤ) / 256 % 256 - (amt : ℤ))).toNat
  let b : ℕ := (max 0 ((num : ℤ) % 256 - (amt : ℤ))).toNat
  String.mk ['#', Nat.digitChar (r / 16), Nat.digitChar (r % 16),
    Nat.digitChar (g / 16), Nat.digitChar (g % 16),
    Nat.digitChar (b / 16), Nat.digitChar (b % 16)]

/-- The claim's `darken`, worded from the specification: each 8-bit channel
reduced by `round(2.55 * percent)` in exact arithmetic, clamped at 0,
re-encoded as `#` plus six zero-padded hex digits. -/
def claimDarken (hex : String) (percent : ℕ) : Option String :=
  (parseHex (replaceFirstHash hex.data)).map fun num => claimEncode num (claimAmt percent)

/-- A string consisting of an optional leading `#` (the first `#` is what
`replace('#', '')` removes) followed by exactly six hex digits. -/
def isHex6 (s : String) : Bool :=
  let d := replaceFirstHash s.data
  d.length = 6 && d.all (fun c => (hexDigitVal c).isSome)

/-! ## Concrete fixtures used by counterexamples and witnesses -/

/-- A single stored post with `view_count 0`. -/
def rowOne : Post := ⟨1, "t", "c", "", none, 0, 0, 0⟩

/-- A stored post whose excerpt is `"ea"`. -/
def rowEA : Post := ⟨1, "t", "c", "ea", none, 0, 0, 0⟩

/-- A stored post identical to `rowEA` except that its excerpt is `"eb"`. -/
def rowEB : Post := ⟨1, "t", "c", "eb", none, 0, 0, 0⟩

/-- An update body that resends title and content but omits excerpt and
thumbnail. -/
def bodyTC : UpdateBody := ⟨some "t2", some "c2", none, none⟩

/-- Two posts created at the same second: ids 1 and 2 in insertion order. -/
def rowTieA : Post := ⟨1, "first", "c", "", none, 0, 7, 7⟩

/-- See `rowTieA`. -/
def rowTieB : Post := ⟨2, "second", "c", "", none, 0, 7, 7⟩

/-- C1: the implemented weather-code mapping agrees with the specification's
total mapping on every integer code. -/
theorem getThemeFromWeatherCode_matches_spec (code : ℤ) :
    ThemeCN.mk (getThemeFromWeatherCode code).color (getThemeFromWeatherCode code).name
      = weatherThemeSpec code := by
  unfold getThemeFromWeatherCode weatherThemeSpec
  simp only [List.mem_cons, List.not_mem_nil, or_false]
  split_ifs <;> rfl

/-- C2: every failure of the weather lookup is answered with HTTP 200,
`success: false` and the default theme; the handler never propagates an
error (it is a total function of the outcome). -/
theorem weatherHandler_failure_default (o : WeatherFetchOutcome)
    (h : o.isFailure = true) :
    (weatherHandler o).status = 200 ∧ (weatherHandler o).success = false ∧
      (weatherHandler o).theme = ⟨"#00C6BD", "default", "기본"⟩ := by
  cases o <;> simp_all [weatherHandler, weatherTry, WeatherFetchOutcome.isFailure]

/-- Witness for C2 at the concrete failure `notOk` (an HTTP error from the
forecast service). -/
theorem weatherHandler_failure_default_witness :
    (weatherHandler .notOk).status = 200 ∧ (weatherHandler .notOk).success = false ∧
      (weatherHandler .notOk).theme = ⟨"#00C6BD", "default", "기본"⟩ :=
  weatherHandler_failure_default .notOk (by decide)

/-! ## Helper lemmas about the store model -/

/-- Updating rows through an id-preserving map commutes with selecting the
rows of one id. -/
theorem findRows_map_ite (db : List Post) (id : ℕ) (f : Post → Post)
    (hf : ∀ r, (f r).id = r.id) :
    findRows (db.map fun r => if r.id = id then f r else r) id
      = (findRows db id).map f := by
  induction db with
  | nil => rfl
  | cons a t ih =>
    unfold findRows at ih ⊢
    by_cases h : a.id = id
    · simp [List.filter_cons, h, hf a, ih]
    · simp [List.filter_cons, h, ih]

/-- `.single()` on a one-row result returns that row without error. -/
theorem selectSingle_of_findRows {db : List Post} {id : ℕ} {r : Post}
    (h : findRows db id = [r]) : selectSingle db id = ⟨some r, none⟩ := by
  unfold selectSingle
  rw [h]

/-- After the view-count update statement, the stored counter of a uniquely
matching row is the written value. -/
theorem viewCountOf_setViewCount {db : List Post} {id : ℕ} {r : Post}
    (v : ℕ) (h : findRows db id = [r]) :
    viewCountOf (setViewCount db id v) id = some v := by
  unfold viewCountOf setViewCount
  rw [findRows_map_ite db id (fun q => { q with view_count := v }) (fun q => rfl), h]
  rfl

/-- C10: a successful detail fetch answers 200 with the row exactly as it
was read — its `view_count` is the pre-increment value — while the
fire-and-forget update leaves the stored counter incremented by one. -/
theorem getPostById_response_preincrement (db : List Post) (id : ℕ)
    (data : Post) (h : findRows db id = [data]) :
    (getPostById db id).1.status = 200 ∧
    (getPostById db id).1.success = true ∧
    (getPostById db id).1.post = some data ∧
    viewCountOf db id = some data.view_count ∧
    viewCountOf (getPostById db id).2 id = some (data.view_count + 1) := by
  have hs : selectSingle db id = ⟨some data, none⟩ := selectSingle_of_findRows h
  refine ⟨by simp [getPostById, hs], by simp [getPostById, hs],
    by simp [getPostById, hs], by simp [viewCountOf, h], ?_⟩
  simpa [getPostById, hs] using viewCountOf_setViewCount (data.view_count + 1) h

/-- Witness for C10: fetching the stored post `rowOne` (counter 0) returns
`view_count 0` in the body and leaves the counter at 1. -/
theorem getPostById_response_preincrement_witness :
    (getPostById [rowOne] 1).1.post = some rowOne ∧
    viewCountOf (getPostById [rowOne] 1).2 1 = some 1 := by
  have h := getPostById_response_preincrement [rowOne] 1 rowOne (by decide)
  exact ⟨h.2.2.1, h.2.2.2.2⟩

/-- C9 (corrected): the view-count increment is an application-level
read-modify-write — the handler writes `view_count + 1` of the row this
request read — so one fetch executed alone increments the counter by
exactly 1. -/
theorem viewCount_read_modify_write (db : List Post) (id : ℕ) (data : Post)
    (h : findRows db id = [data]) :
    viewCountWrite db id = some (data.view_count + 1) ∧
    (getPostById db id).2 = setViewCount db id (data.view_count + 1) ∧
    viewCountOf (getPostById db id).2 id = some (data.view_count + 1) := by
  have hs : selectSingle db id = ⟨some data, none⟩ := selectSingle_of_findRows h
  refine ⟨by simp [viewCountWrite, hs], by simp [getPostById, hs], ?_⟩
  simpa [getPostById, hs] using viewCountOf_setViewCount (data.view_count + 1) h

/-- Witness for C9's corrected statement on the one-row store. -/
theorem viewCount_read_modify_write_witness :
    viewCountWrite [rowOne] 1 = some 1 ∧
    viewCountOf (getPostById [rowOne] 1).2 1 = some 1 :=
  let h := viewCount_read_modify_write [rowOne] 1 rowOne (by decide)
  ⟨h.1, h.2.2⟩

/-- C9 counterexample: the increment of api/index.js line 207 is
`view_count: data.view_count + 1`, a value computed from the snapshot this
request read, not an atomic add-one. Two concurrent fetches of `rowOne`
(counter 0) that both read before either update lands each write the value
1; after both writes the stored counter is 1, not 2 — an increment is lost,
refuting the claim that each fetch increments the counter by exactly 1
under concurrency. -/
theorem viewCount_lost_update_counterexample :
    viewCountOf [rowOne] 1 = some 0 ∧
    viewCountWrite [rowOne] 1 = some 1 ∧
    viewCountOf (setViewCount (setViewCount [rowOne] 1 1) 1 1) 1 = some 1 ∧
    viewCountOf (setViewCount (setViewCount [rowOne] 1 1) 1 1) 1 ≠ some 2 := by
  decide

/-- C3: evaluation of the three handlers at an id with no matching row (the
empty table, id 1). `GET` and `PUT` answer 500 — `.single()` reports the
zero-row error, which the handler throws, so the explicit 404 branch of the
`GET` handler is unreachable — and `DELETE` answers 200 with
`success: true`. None of them produces the specified 404. -/
theorem postById_notFound_evaluation :
    (getPostById [] 1).1.status = 500 ∧
    (getPostById [] 1).1.success = false ∧
    (updatePostById [] 1 bodyTC 5).1.status = 500 ∧
    (updatePostById [] 1 bodyTC 5).1.success = false ∧
    (deletePostById [] 1).1.status = 200 ∧
    (deletePostById [] 1).1.success = true := by
  decide

/-- C6: when `title` or `content` is missing or empty, `POST /api/posts`
answers 400 with `success: false`, and the table is exactly what it was —
the validation runs before any insert. -/
theorem createPost_validation (db : List Post) (b : CreateBody)
    (newId now : ℕ) (h : (isFalsy b.title || isFalsy b.content) = true) :
    (createPost db b newId now).1.status = 400 ∧
    (createPost db b newId now).1.success = false ∧
    (createPost db b newId now).2 = db := by
  refine ⟨?_, ?_, ?_⟩ <;> simp [createPost, h]

/-- Witness for C6: a body with content but an absent title. -/
theorem createPost_validation_witness :
    (createPost [] ⟨none, some "c", none, none⟩ 1 0).1.status = 400 ∧
    (createPost [] ⟨none, some "c", none, none⟩ 1 0).1.success = false ∧
    (createPost [] ⟨none, some "c", none, none⟩ 1 0).2 = [] :=
  createPost_validation [] ⟨none, some "c", none, none⟩ 1 0 (by decide)

/-- C7 counterexample: two stores whose only row differs just in the stored
excerpt, updated with the same body that omits `excerpt`. Both updates
succeed, yet the resulting excerpts still differ — the omitted field was
not overwritten with the passed value (supabase-js drops `undefined`
properties at serialisation), i.e. the update is a partial-field merge for
omitted fields, contradicting "overwrites all four mutable fields
unconditionally". -/
theorem updatePost_omitted_field_counterexample :
    (updatePostById [rowEA] 1 bodyTC 5).1.status = 200 ∧
    (updatePostById [rowEB] 1 bodyTC 5).1.status = 200 ∧
    (updatePostById [rowEA] 1 bodyTC 5).1.post.map (·.excerpt) = some "ea" ∧
    (updatePostById [rowEB] 1 bodyTC 5).1.post.map (·.excerpt) = some "eb" ∧
    (updatePostById [rowEA] 1 bodyTC 5).1.post.map (·.excerpt)
      ≠ (updatePostById [rowEB] 1 bodyTC 5).1.post.map (·.excerpt) := by
  decide

/-- C7 (corrected): a successful update overwrites exactly the fields
present in the request body (an omitted field keeps its stored value),
refreshes `updated_at` to the current instant — strictly later than the
previous one whenever the clock advanced — and leaves `id`, `created_at`
and `view_count` unchanged. -/
theorem updatePost_overwrites_present_fields (db : List Post) (id : ℕ)
    (b : UpdateBody) (now : ℕ) (r : Post) (h : findRows db id = [r]) :
    (updatePostById db id b now).1.status = 200 ∧
    (updatePostById db id b now).1.success = true ∧
    (updatePostById db id b now).1.post = some (applyUpdate r b now) ∧
    (∀ v, b.title = some v → (applyUpdate r b now).title = v) ∧
    (b.title = none → (applyUpdate r b now).title = r.title) ∧
    (∀ v, b.content = some v → (applyUpdate r b now).content = v) ∧
    (b.content = none → (applyUpdate r b now).content = r.content) ∧
    (∀ v, b.excerpt = some v → (applyUpdate r b now).excerpt = v) ∧
    (b.excerpt = none → (applyUpdate r b now).excerpt = r.excerpt) ∧
    (∀ v, b.thumbnail = some v → (applyUpdate r b now).thumbnail = some v) ∧
    (b.thumbnail = none → (applyUpdate r b now).thumbnail = r.thumbnail) ∧
    (applyUpdate r b now).updated_at = now ∧
    (r.updated_at < now → r.updated_at < (applyUpdate r b now).updated_at) ∧
    (applyUpdate r b now).id = r.id ∧
    (applyUpdate r b now).created_at = r.created_at ∧
    (applyUpdate r b now).view_count = r.view_count := by
  have hrows :
      findRows (db.map fun q => if q.id = id then applyUpdate q b now else q) id
        = [applyUpdate r b now] := by
    rw [findRows_map_ite db id (fun q => applyUpdate q b now) (fun q => rfl), h]
    rfl
  have hs := selectSingle_of_findRows hrows
  have hpost : (updatePostById db id b now).1
      = ⟨200, true, some (applyUpdate r b now), none⟩ := by
    simp [updatePostById, hs]
  refine ⟨by rw [hpost], by rw [hpost], by rw [hpost],
    ?_, ?_, ?_, ?_, ?_, ?_, ?_, ?_, ?_, ?_, ?_, ?_, ?_⟩
  all_goals first
    | (intro v hv; simp [applyUpdate, hv])
    | (intro hv; simp [applyUpdate, hv])
    | simp [applyUpdate]

/-- Witness for C7's corrected statement: updating `rowEA` with `bodyTC` at
instant 5 succeeds, returns the merged row, and refreshes `updated_at`. -/
theorem updatePost_overwrites_present_fields_witness :
    (updatePostById [rowEA] 1 bodyTC 5).1.post = some (applyUpdate rowEA bodyTC 5) ∧
    (applyUpdate rowEA bodyTC 5).updated_at = 5 ∧
    (applyUpdate rowEA bodyTC 5).created_at = 0 :=
  let h := updatePost_overwrites_present_fields [rowEA] 1 bodyTC 5 rowEA (by decide)
  ⟨h.2.2.1, h.2.2.2.2.2.2.2.2.2.2.2.1, by decide⟩

/-- `Math.ceil` of a quotient of naturals agrees with the rounded-up
natural division `(a + b - 1) / b` for every positive divisor. -/
theorem jsCeilDiv_eq (a b : ℕ) (hb : 1 ≤ b) :
    jsCeilDiv a b = (a + b - 1) / b := by
  unfold jsCeilDiv
  have hdm := Nat.div_add_mod (a + b - 1) b
  have hmod := Nat.mod_lt (a + b - 1) (show 0 < b from hb)
  set r := (a + b - 1) % b with hr
  set n := (a + b - 1) / b with hn
  have hdm1 : b * n + r + 1 = a + b := by
    rw [hdm, Nat.sub_add_cancel (by omega)]
  have hb0 : (0 : ℚ) < b := by exact_mod_cast hb
  have hb1 : (1 : ℚ) ≤ b := by exact_mod_cast hb
  have hdmQ : (b : ℚ) * n + r + 1 = a + b := by exact_mod_cast hdm1
  have hmodQ : (r : ℚ) < b := by exact_mod_cast hmod
  have hceil : ⌈(a : ℚ) / (b : ℚ)⌉ = (n : ℤ) := by
    rw [Int.ceil_eq_iff]
    refine ⟨?_, ?_⟩
    · push_cast
      rw [lt_div_iff₀ hb0]
      have hx : ((n : ℚ) - 1) * b = b * n - b := by ring
      rw [hx]
      linarith
    · push_cast
      rw [div_le_iff₀ hb0]
      have hx : (n : ℚ) * b = b * n := by ring
      have h1 : a ≤ b * n := by linarith
      have h1Q : (a : ℚ) ≤ b * n := by exact_mod_cast h1
      rw [hx]
      linarith
  rw [hceil]
  exact Int.toNat_natCast n

/-- C4: the list handler reports `total` as the row count at query time and
`totalPages = ceil(total / limit)`, serves the slice that starts at offset
`(page - 1) * limit`, and does not error on an empty table: it answers 200
with an empty page and `totalPages = 0`. -/
theorem listPosts_pagination_contract (db : List Post) (page limit : ℕ)
    (hp : 1 ≤ page) (hl : 1 ≤ limit) :
    (listPosts db page limit).status = 200 ∧
    (listPosts db page limit).pagination.total = db.length ∧
    (listPosts db page limit).pagination.totalPages
      = (db.length + limit - 1) / limit ∧
    (listPosts db page limit).posts
      = (((db.mergeSort byCreatedDesc).map projPost).drop
          ((page - 1) * limit)).take limit ∧
    (db = [] → (listPosts db page limit).posts = [] ∧
      (listPosts db page limit).pagination.totalPages = 0) := by
  refine ⟨rfl, rfl, jsCeilDiv_eq _ _ hl, rfl, ?_⟩
  rintro rfl
  refine ⟨by simp [listPosts], ?_⟩
  show jsCeilDiv (List.length []) limit = 0
  simp [jsCeilDiv]

/-- Witness for C4 on the empty table with the default page and limit. -/
theorem listPosts_pagination_contract_witness :
    (listPosts [] 1 10).pagination.total = 0 ∧
    (listPosts [] 1 10).pagination.totalPages = 0 ∧
    (listPosts [] 1 10).posts = [] := by
  have h := listPosts_pagination_contract [] 1 10 (by decide) (by decide)
  exact ⟨h.2.1, (h.2.2.2.2 rfl).2, (h.2.2.2.2 rfl).1⟩

/-- C5 counterexample: two posts created at the same instant, stored in
insertion order with ids 1 then 2. The query orders only by `created_at`
descending — no secondary key is sent — so the store model returns the tie
in table order: ids `[1, 2]`, not the id-descending `[2, 1]` the claim
requires. -/
theorem listPosts_tie_order_counterexample :
    ((listPosts [rowTieA, rowTieB] 1 10).posts.map (·.id)) = [1, 2] ∧
    ((listPosts [rowTieA, rowTieB] 1 10).posts.map (·.id)) ≠ [2, 1] := by
  have hs : [rowTieA, rowTieB].mergeSort byCreatedDesc = [rowTieA, rowTieB] :=
    List.mergeSort_of_sorted (by decide)
  constructor
  · simp [listPosts, hs]
    decide
  · simp [listPosts, hs]
    decide

/-- C5 (corrected): the returned page is ordered by `created_at` descending
(ties in store order, with no guaranteed id order), and every returned item
is the `{id, title, excerpt, thumbnail, created_at, view_count}` projection
of a stored row — `content` is excluded by the projection type itself. -/
theorem listPosts_sorted_and_projected (db : List Post) (page limit : ℕ)
    (hp : 1 ≤ page) (hl : 1 ≤ limit) :
    ((listPosts db page limit).posts.Pairwise
      (fun a b => b.created_at ≤ a.created_at)) ∧
    (∀ s ∈ (listPosts db page limit).posts, ∃ q, q ∈ db ∧ s = projPost q) := by
  have htrans : ∀ a b c : Post,
      byCreatedDesc a b → byCreatedDesc b c → byCreatedDesc a c := by
    intro a b c hab hbc
    simp only [byCreatedDesc, decide_eq_true_eq] at *
    omega
  have htotal : ∀ a b : Post, byCreatedDesc a b || byCreatedDesc b a := by
    intro a b
    simp only [byCreatedDesc, Bool.or_eq_true, decide_eq_true_eq]
    omega
  have hsorted := List.sorted_mergeSort htrans htotal db
  constructor
  · have h1 : ((db.mergeSort byCreatedDesc).map projPost).Pairwise
        (fun a b => b.created_at ≤ a.created_at) := by
      rw [List.pairwise_map]
      refine hsorted.imp ?_
      intro a b hab
      simpa [byCreatedDesc] using hab
    show ((((db.mergeSort byCreatedDesc).map projPost).drop
        ((page - 1) * limit)).take limit).Pairwise _
    exact List.Pairwise.sublist
      ((List.take_sublist _ _).trans (List.drop_sublist _ _)) h1
  · intro s hs
    have hs1 : s ∈ (db.mergeSort byCreatedDesc).map projPost :=
      List.mem_of_mem_drop (List.mem_of_mem_take hs)
    obtain ⟨q, hq, rfl⟩ := List.mem_map.mp hs1
    exact ⟨q, List.mem_mergeSort.mp hq, rfl⟩

/-- Witness for C5's corrected statement on the tied two-row store. -/
theorem listPosts_sorted_and_projected_witness :
    ((listPosts [rowTieA, rowTieB] 1 10).posts.Pairwise
      (fun a b => b.created_at ≤ a.created_at)) :=
  (listPosts_sorted_and_projected [rowTieA, rowTieB] 1 10
    (by decide) (by decide)).1

/-! ## Lemmas about the hex rendering of `darken` -/

/-- Digit accumulation: the accumulator is a suffix of the result. -/
theorem toString16Aux_acc (fuel : ℕ) :
    ∀ (n : ℕ) (acc : List Char),
      toString16Aux fuel n acc = toString16Aux fuel n [] ++ acc := by
  induction fuel with
  | zero => intro n acc; simp [toString16Aux]
  | succ fuel ih =>
    intro n acc
    by_cases h : n < 16
    · simp [toString16Aux, h]
    · simp only [toString16Aux, h, if_neg, if_false]
      rw [ih (n / 16) (Nat.digitChar (n % 16) :: acc),
        ih (n / 16) [Nat.digitChar (n % 16)], List.append_assoc]
      rfl

/-- Any fuel strictly above `n` computes the same digits. -/
theorem toString16Aux_fuel (f1 : ℕ) :
    ∀ (f2 n : ℕ) (acc : List Char), n < f1 → n < f2 →
      toString16Aux f1 n acc = toString16Aux f2 n acc := by
  induction f1 with
  | zero => intro f2 n acc h1 _; omega
  | succ f1 ih =>
    intro f2 n acc h1 h2
    cases f2 with
    | zero => omega
    | succ f2 =>
      by_cases h : n < 16
      · simp [toString16Aux, h]
      · simp only [toString16Aux, h, if_neg, if_false]
        exact ih f2 (n / 16) _ (by omega) (by omega)

/-- Peeling the least significant digit off `toString(16)`. -/
theorem toString16_step (a d : ℕ) (ha : 0 < a) (hd : d < 16) :
    toString16 (a * 16 + d) = toString16 a ++ [Nat.digitChar d] := by
  unfold toString16
  have h16 : ¬ (a * 16 + d < 16) := by omega
  have hdiv : (a * 16 + d) / 16 = a := by omega
  have hmod : (a * 16 + d) % 16 = d := by omega
  simp only [toString16Aux, h16, if_neg, if_false, hdiv, hmod]
  rw [toString16Aux_acc, toString16Aux_fuel (a * 16 + d) (a + 1) a [] (by omega) (by omega)]
  rfl

/-- `(0x1000000 + R * 0x10000 + G * 0x100 + B).toString(16)` is the digit
`1` followed by the six zero-padded hex digits of the three channels. -/
theorem toString16_hex7 (R G B : ℕ) (hR : R ≤ 255) (hG : G ≤ 255) (hB : B ≤ 255) :
    toString16 (16777216 + R * 65536 + G * 256 + B)
      = ['1', Nat.digitChar (R / 16), Nat.digitChar (R % 16),
          Nat.digitChar (G / 16), Nat.digitChar (G % 16),
          Nat.digitChar (B / 16), Nat.digitChar (B % 16)] := by
  have h1 : 16777216 + R * 65536 + G * 256 + B
      = (((((1 * 16 + R / 16) * 16 + R % 16) * 16 + G / 16) * 16 + G % 16)
          * 16 + B / 16) * 16 + B % 16 := by
    omega
  rw [h1]
  rw [toString16_step _ _ (by omega) (by omega)]
  rw [toString16_step _ _ (by omega) (by omega)]
  rw [toString16_step _ _ (by omega) (by omega)]
  rw [toString16_step _ _ (by omega) (by omega)]
  rw [toString16_step _ _ (by omega) (by omega)]
  rw [toString16_step _ _ (by omega) (by omega)]
  simp [toString16, toString16Aux]
  decide

/-- Clamping at zero before `Int.toNat` is redundant. -/
theorem toNat_max_zero (x : ℤ) : (max 0 x).toNat = x.toNat := by
  rcases le_total 0 x with h | h
  · rw [max_eq_right h]
  · rw [max_eq_left h]
    simp [Int.toNat_of_nonpos h]

/-- On 24-bit inputs, the JavaScript re-encoding (`0x1000000 +` trick plus
`slice(1)`) produces exactly the six positional hex digits of the reduced
channels, for any reduction amount. -/
theorem jsEncode_eq_claimEncode (num amt : ℕ) (h : num < 16777216) :
    jsEncode num amt = claimEncode num amt := by
  simp only [jsEncode, claimEncode]
  have hRb : (max 0 ((num : ℤ) / 65536 - (amt : ℤ))).toNat ≤ 255 := by
    rw [toNat_max_zero]; omega
  have hGb : (max 0 ((num : ℤ) / 256 % 256 - (amt : ℤ))).toNat ≤ 255 := by
    rw [toNat_max_zero]; omega
  have hBb : (max 0 ((num : ℤ) % 256 - (amt : ℤ))).toNat ≤ 255 := by
    rw [toNat_max_zero]; omega
  rw [toString16_hex7 _ _ _ hRb hGb hBb]
  rfl

/-- Every hex digit value is below 16. -/
theorem hexDigitVal_lt {c : Char} {d : ℕ} (h : hexDigitVal c = some d) :
    d < 16 := by
  unfold hexDigitVal at h
  split_ifs at h <;> simp_all <;> omega

/-- A run of hex digits parses, to a value below `16 ^ length` (scaled by
the accumulator). -/
theorem parseHexAux_sound (l : List Char) :
    ∀ n : ℕ, (∀ c ∈ l, (hexDigitVal c).isSome) →
      ∃ m, parseHexAux n l = some m ∧ m < (n + 1) * 16 ^ l.length := by
  induction l with
  | nil =>
    intro n _
    exact ⟨n, rfl, by simpa using Nat.lt_succ_self n⟩
  | cons c cs ih =>
    intro n h
    obtain ⟨d, hd⟩ : ∃ d, hexDigitVal c = some d :=
      Option.isSome_iff_exists.mp (h c (by simp))
    have hd16 : d < 16 := hexDigitVal_lt hd
    obtain ⟨m, hm, hmlt⟩ := ih (n * 16 + d) (fun x hx => h x (by simp [hx]))
    refine ⟨m, by simp [parseHexAux, hd, hm], ?_⟩
    have hstep : (n * 16 + d + 1) * 16 ^ cs.length ≤ (n + 1) * 16 ^ (c :: cs).length := by
      rw [List.length_cons, pow_succ]
      calc (n * 16 + d + 1) * 16 ^ cs.length
          ≤ ((n + 1) * 16) * 16 ^ cs.length :=
            Nat.mul_le_mul_right _ (by omega)
        _ = (n + 1) * (16 ^ cs.length * 16) := by ring
    exact lt_of_lt_of_le hmlt hstep

/-- A valid 6-hex-digit color parses to a 24-bit value. -/
theorem isHex6_parse (s : String) (h : isHex6 s = true) :
    ∃ num, parseHex (replaceFirstHash s.data) = some num ∧ num < 16777216 := by
  unfold isHex6 at h
  simp only [Bool.and_eq_true, decide_eq_true_eq, List.all_eq_true] at h
  obtain ⟨hlen, hall⟩ := h
  obtain ⟨m, hm, hlt⟩ := parseHexAux_sound (replaceFirstHash s.data) 0
    (fun c hc => hall c hc)
  refine ⟨m, ?_, ?_⟩
  · unfold parseHex
    cases hL : replaceFirstHash s.data with
    | nil => rw [hL] at hlen; simp at hlen
    | cons a t => rw [hL] at hm; exact hm
  · rw [hlen] at hlt
    simpa using hlt

/-- The IEEE-754 product model and the exact-arithmetic rounding agree on
every integer percentage 0-100 except 50 and 90. -/
theorem jsAmt_eq_claimAmt :
    ∀ p : ℕ, p ≤ 100 → p ≠ 50 → p ≠ 90 → jsAmt p = claimAmt p := by
  decide

/-- The claim's encoding always emits `#` plus six hex digits. -/
theorem claimEncode_shape (num amt : ℕ) (h : num < 16777216) :
    ∃ ds : List Char, ds.length = 6 ∧
      (∀ d ∈ ds, ∃ k, k < 16 ∧ d = Nat.digitChar k) ∧
      claimEncode num amt = String.mk ('#' :: ds) := by
  simp only [claimEncode]
  have hRb : (max 0 ((num : ℤ) / 65536 - (amt : ℤ))).toNat ≤ 255 := by
    rw [toNat_max_zero]; omega
  have hGb : (max 0 ((num : ℤ) / 256 % 256 - (amt : ℤ))).toNat ≤ 255 := by
    rw [toNat_max_zero]; omega
  have hBb : (max 0 ((num : ℤ) % 256 - (amt : ℤ))).toNat ≤ 255 := by
    rw [toNat_max_zero]; omega
  set R := (max 0 ((num : ℤ) / 65536 - (amt : ℤ))).toNat with hR
  set G := (max 0 ((num : ℤ) / 256 % 256 - (amt : ℤ))).toNat with hG
  set B := (max 0 ((num : ℤ) % 256 - (amt : ℤ))).toNat with hB
  refine ⟨[Nat.digitChar (R / 16), Nat.digitChar (R % 16),
    Nat.digitChar (G / 16), Nat.digitChar (G % 16),
    Nat.digitChar (B / 16), Nat.digitChar (B % 16)], rfl, ?_, rfl⟩
  intro d hd
  simp only [List.mem_cons, List.not_mem_nil, or_false] at hd
  rcases hd with rfl | rfl | rfl | rfl | rfl | rfl
  exacts [⟨R / 16, by omega, rfl⟩, ⟨R % 16, by omega, rfl⟩,
    ⟨G / 16, by omega, rfl⟩, ⟨G % 16, by omega, rfl⟩,
    ⟨B / 16, by omega, rfl⟩, ⟨B % 16, by omega, rfl⟩]

/-- C8 counterexample: at `percent = 50`, JavaScript computes
`2.55 * 50 = 127.49999999999999` (the double nearest 2.55 lies below it,
and the product rounds down), so `Math.round` gives 127, while the claim's
exact `round(2.55 * 50) = round(127.5)` gives 128. On `#00C6BD` the code
returns `#00473e`, not the `#00463d` the claimed reduction by 128 yields. -/
theorem darken_percent50_counterexample :
    darken "#00C6BD" 50 = some "#00473e" ∧
    claimDarken "#00C6BD" 50 = some "#00463d" ∧
    darken "#00C6BD" 50 ≠ claimDarken "#00C6BD" 50 := by
  decide

/-- C8 (corrected): for every color and every percentage 0-100 other than
50 and 90, `darken` reduces each channel by the exact `round(2.55 *
percent)`, clamped at 0, and re-encodes as `#` plus six zero-padded hex
digits — exactly the claimed function; at 50 and 90 the IEEE-754 product
rounds to 127 and 229 where the exact rounding gives 128 and 230; and for
every valid color and every percentage the output shape `#` + 6 hex digits
holds. -/
theorem darken_matches_claim_except_ties :
    (∀ (c : String) (p : ℕ), isHex6 c = true → p ≤ 100 → p ≠ 50 → p ≠ 90 →
      darken c p = claimDarken c p) ∧
    jsAmt 10 = 26 ∧ jsAmt 50 = 127 ∧ claimAmt 50 = 128 ∧
    jsAmt 90 = 229 ∧ claimAmt 90 = 230 ∧
    (∀ (c : String) (p : ℕ), isHex6 c = true →
      ∃ ds : List Char, ds.length = 6 ∧
        (∀ d ∈ ds, ∃ k, k < 16 ∧ d = Nat.digitChar k) ∧
        darken c p = some (String.mk ('#' :: ds))) := by
  refine ⟨?_, by decide, by decide, by decide, by decide, by decide, ?_⟩
  · intro c p hc h100 h50 h90
    obtain ⟨num, hnum, hlt⟩ := isHex6_parse c hc
    unfold darken claimDarken
    rw [hnum, jsAmt_eq_claimAmt p h100 h50 h90]
    simp only [Option.map_some']
    rw [jsEncode_eq_claimEncode num _ hlt]
  · intro c p hc
    obtain ⟨num, hnum, hlt⟩ := isHex6_parse c hc
    obtain ⟨ds, hlen, hdig, hshape⟩ := claimEncode_shape num (jsAmt p) hlt
    refine ⟨ds, hlen, hdig, ?_⟩
    unfold darken
    rw [hnum]
    simp only [Option.map_some']
    rw [jsEncode_eq_claimEncode num _ hlt, hshape]

/-- Witness for C8's corrected statement: the specification's own example,
`darken("#00C6BD", 10)`, where both sides reduce each channel by 26. -/
theorem darken_matches_claim_except_ties_witness :
    darken "#00C6BD" 10 = claimDarken "#00C6BD" 10 ∧
    claimDarken "#00C6BD" 10 = some "#00aca3" :=
  ⟨darken_matches_claim_except_ties.1 "#00C6BD" 10
    (by decide) (by decide) (by decide) (by decide), by decide⟩

end BrunchBlog
